import Mathlib

/-!
Verification of the pixelui frame translator and input forwarder.

The repository is a Go shim between an immediate-mode GUI library (imgui)
and a 2D rendering engine (pixel).  This file shallowly embeds the code of
`src/ui.go` and `src/input.go`:

* `float64` / `float32` coordinates are modelled as rationals (ℚ);
* `uint32` packed colors are modelled as `Nat` with explicit `% 2 ^ 32`
  reasoning where overflow matters;
* the host library types `pixel.Vec`, `pixel.Rect`, `pixel.Matrix` and their
  methods (`Norm`, `Project`, `ScaledXY`, `Add`, `Map`, `Size`) are embedded
  from the gopxl/pixel v2 sources that the shim calls into;
* the imgui draw data (command lists, commands, vertex/index buffers) is
  embedded as typed lists, and the per-frame translation loop of `UI.Draw`
  (src/ui.go lines 152-213) as a fold over them;
* the key-event callback registered in `src/input.go` lines 32-53 is embedded
  as a function on a key-state table indexed from the GUI library's named-key
  base (index `i` of the table holds named key `512 + i`).
-/

namespace PixelUI

/-- pixel.Vec: a 2D vector.  Coordinates (Go float64) are modelled as ℚ. -/
structure Vec where
  x : ℚ
  y : ℚ
deriving DecidableEq

/-- pixel.Vec.Add: componentwise addition. -/
def Vec.add (v u : Vec) : Vec := ⟨v.x + u.x, v.y + u.y⟩

/-- pixel.Vec.ScaledXY: componentwise multiplication. -/
def Vec.scaledXY (v s : Vec) : Vec := ⟨v.x * s.x, v.y * s.y⟩

/-- pixel.Vec.Map: apply a function to both components. -/
def Vec.map (v : Vec) (f : ℚ → ℚ) : Vec := ⟨f v.x, f v.y⟩

/-- pixel.ZV: the zero vector. -/
def ZV : Vec := ⟨0, 0⟩

/-- pixel.Rect: an axis-aligned rectangle given by two corners. -/
structure Rect where
  min : Vec
  max : Vec
deriving DecidableEq

/-- pixel.Rect.Size: the vector from Min to Max. -/
def Rect.size (r : Rect) : Vec := ⟨r.max.x - r.min.x, r.max.y - r.min.y⟩

/-- pixel.Rect.Norm: the same rectangle with Min ≤ Max on both axes. -/
def Rect.norm (r : Rect) : Rect :=
  ⟨⟨Min.min r.min.x r.max.x, Min.min r.min.y r.max.y⟩,
   ⟨Max.max r.min.x r.max.x, Max.max r.min.y r.max.y⟩⟩

/-- pixel.Matrix: a 2×3 affine transform stored as six coefficients
`[m0 m2 m4; m1 m3 m5]`. -/
structure Matrix where
  m0 : ℚ
  m1 : ℚ
  m2 : ℚ
  m3 : ℚ
  m4 : ℚ
  m5 : ℚ
deriving DecidableEq

/-- pixel.IM: the identity matrix. -/
def IM : Matrix := ⟨1, 0, 0, 1, 0, 0⟩

/-- pixel.Matrix.Project: apply the affine transform to a vector. -/
def Matrix.project (m : Matrix) (u : Vec) : Vec :=
  ⟨m.m0 * u.x + m.m2 * u.y + m.m4, m.m1 * u.x + m.m3 * u.y + m.m5⟩

/-- pixel.Matrix.ScaledXY: scale around a point, by possibly different factors
on the two axes.  Mirrors the in-place update order of the Go source. -/
def Matrix.scaledXY (m : Matrix) (around scale : Vec) : Matrix :=
  let e0 := m.m4 - around.x
  let f0 := m.m5 - around.y
  let a := m.m0 * scale.x
  let c := m.m2 * scale.x
  let e1 := e0 * scale.x
  let b := m.m1 * scale.y
  let d := m.m3 * scale.y
  let f1 := f0 * scale.y
  ⟨a, b, c, d, e1 + around.x, f1 + around.y⟩

/-- UI.updateMatrix (src/ui.go line 132): the per-frame view transform,
`pixel.IM.ScaledXY(win.Bounds().Center(), pixel.V(1, -1))`, which flips the
y axis around the window centre. -/
def updateMatrix (center : Vec) : Matrix :=
  IM.scaledXY center ⟨1, -1⟩

/-- recip (src/ui.go lines 220-222): the reciprocal of the given number. -/
def recip (m : ℚ) : ℚ := 1 / m

/-- UI.calcData (src/ui.go lines 225-227): scales the incoming sprite uv to
the proper sub-sprite in the packed atlas.  `atlasSize` stands for
`ui.atlas.Textures()[0].Bounds().Size()`. -/
def calcData (atlasSize : Vec) (frame : Rect) (uuvv : Vec) : Vec :=
  ((uuvv.scaledXY frame.size).add frame.min).scaledXY (atlasSize.map recip)

/-- color.RGBA: the host color type, one Nat per 8-bit channel. -/
structure RGBA where
  r : Nat
  g : Nat
  b : Nat
  a : Nat
deriving DecidableEq

/-- imguiColorToPixelColor (src/ui.go lines 230-238): converts the imgui
packed ABGR uint32 into the host RGBA color.  `c >>> k &&& 0xFF` on a uint32
is `c / 2 ^ k % 2 ^ 8` on Nat. -/
def imguiColorToPixelColor (c : Nat) : RGBA :=
  { a := c / 2 ^ 24 % 2 ^ 8
    b := c / 2 ^ 16 % 2 ^ 8
    g := c / 2 ^ 8 % 2 ^ 8
    r := c % 2 ^ 8 }

/-- Repacking the host RGBA channels into the GUI library's ABGR byte order
(alpha in the highest byte, then blue, green, red): the inverse operation
named by the spec's round-trip property. -/
def packABGR (col : RGBA) : Nat :=
  col.a * 2 ^ 24 + col.b * 2 ^ 16 + col.g * 2 ^ 8 + col.r

/-- imgui.Vec4: the GUI library's clip-rectangle value (x, y, z, w). -/
structure ImVec4 where
  x : ℚ
  y : ℚ
  z : ℚ
  w : ℚ
deriving DecidableEq

/-- Modelled from the spec: the repository helper `imguiRectToPixelRect`
(called at src/ui.go line 176) is not under src/.  Per the spec's data model
a clip rectangle is a screen-space bounding box carried as the GUI library's
vec4; the helper repacks it into the host rectangle with Min = (x, y) and
Max = (z, w), i.e. `pixel.R(x, y, z, w)`. -/
def imguiRectToPixelRect (r : ImVec4) : Rect :=
  ⟨⟨r.x, r.y⟩, ⟨r.z, r.w⟩⟩

/-- Modelled from the spec: the repository helper `PV` (called at src/ui.go
lines 198 and 200) is not under src/.  It converts the GUI library's 2-vector
into the host vector type (a float32 → float64 widening, the identity in the
rational model). -/
def PV (v : Vec) : Vec := v

/-- The clip-rectangle resolution of UI.Draw (src/ui.go lines 176-179):
convert the command's vec4 to a host rect, normalize, project both corners
through the current view transform, and normalize again. -/
def processClipRect (m : Matrix) (r : ImVec4) : Rect :=
  let c0 := (imguiRectToPixelRect r).norm
  let c1 : Rect := ⟨m.project c0.min, m.project c0.max⟩
  c1.norm

/-- One decoded imgui vertex: position, texture coordinate and packed ABGR
color, as read from the vertex buffer through the layout offsets
(src/ui.go lines 194-196). -/
structure DrawVert where
  pos : Vec
  uv : Vec
  col : Nat
deriving DecidableEq

/-- imgui.DrawCmd: either a user callback, or a run of `elemCount` indices
drawn with one texture id and one clip rectangle. -/
structure ImDrawCmd where
  hasUserCallback : Bool
  elemCount : Nat
  clipRect : ImVec4
  texID : Nat
deriving DecidableEq

/-- imgui.DrawList: an ordered command sequence sharing one vertex buffer
and one index buffer. -/
structure ImDrawList where
  commands : List ImDrawCmd
  vertexBuffer : List DrawVert
  indexBuffer : List Nat
deriving DecidableEq

/-- One vertex of the output triangle buffer (`ui.shaderTris`): position,
atlas-global UV, intensity flag, color and clip rectangle, the five fields
set at src/ui.go lines 202-205. -/
structure ShaderVertex where
  pos : Vec
  picture : Vec
  intensity : ℚ
  color : RGBA
  clipRect : Rect
deriving DecidableEq

/-- The zero-valued output vertex, used for slots freshly added by a grow
(`GLTriangles.SetLen` zero-initialises new entries). -/
def defaultShaderVertex : ShaderVertex :=
  ⟨ZV, ZV, 0, ⟨0, 0, 0, 0⟩, ⟨ZV, ZV⟩⟩

/-- GLTriangles.SetLen: resize the output buffer to `n` vertices, keeping the
existing prefix and zero-initialising any newly added slots. -/
def setLenTris (n : Nat) (l : List ShaderVertex) : List ShaderVertex :=
  l.take n ++ List.replicate (n - l.length) defaultShaderVertex

/-- Write a run of vertices into the buffer starting at slot `s`, one
`List.set` per vertex, as the inner loop's per-index setters do. -/
def writeAt : List ShaderVertex → Nat → List ShaderVertex → List ShaderVertex
  | buf, _, [] => buf
  | buf, s, v :: vs => writeAt (buf.set s v) (s + 1) vs

/-- The body of the inner loop of UI.Draw (src/ui.go lines 190-206) for loop
counter `i`: fetch the `i`-th index after the running index-buffer offset,
fetch the referenced vertex, and build the output vertex from its position,
remapped UV, the command's intensity, its decoded color and the command's
resolved clip rectangle. -/
def mkShaderVertex (atlasSize : Vec) (texRect : Rect) (intensity : ℚ)
    (clipRect : Rect) (vb : List DrawVert) (ib : List Nat)
    (ibOff i : Nat) : ShaderVertex :=
  let index := ib.getD (ibOff + i) 0
  let v := vb.getD index ⟨ZV, ZV, 0⟩
  { pos := PV v.pos
    picture := calcData atlasSize texRect (PV v.uv)
    intensity := intensity
    color := imguiColorToPixelColor v.col
    clipRect := clipRect }

/-- The vertices one command emits (src/ui.go lines 164-207): none for a
user-callback command; otherwise one output vertex per index in the
command's range, all carrying the command's clip rectangle and intensity
(`0` when the texture id is the font texture, else `1`).  `atlas` stands for
the mapping `id ↦ ui.atlas.Get(id).Frame()`. -/
def cmdOutVerts (atlasSize : Vec) (m : Matrix) (fontID : Nat)
    (atlas : Nat → Rect) (vb : List DrawVert) (ib : List Nat)
    (ibOff : Nat) (cmd : ImDrawCmd) : List ShaderVertex :=
  if cmd.hasUserCallback then []
  else
    let clipRect := processClipRect m cmd.clipRect
    let texRect := atlas cmd.texID
    let intensity : ℚ := if cmd.texID = fontID then 0 else 1
    (List.range cmd.elemCount).map
      (mkShaderVertex atlasSize texRect intensity clipRect vb ib ibOff)

/-- The running state of the translation loop: the triangle counter
`totalTris` and the output buffer `ui.shaderTris`. -/
structure DrawState where
  totalTris : Nat
  tris : List ShaderVertex
deriving DecidableEq

/-- One iteration of the command loop of UI.Draw (src/ui.go lines 164-208) on
the state `(drawState, indexBufferOffset)`: a callback command invokes the
callback and leaves the buffer untouched; a draw command advances the
counter by its element count, grows the buffer if it is too short, and
writes its output vertices at the precomputed start slot. -/
def runCmd (atlasSize : Vec) (m : Matrix) (fontID : Nat) (atlas : Nat → Rect)
    (vb : List DrawVert) (ib : List Nat)
    (st : DrawState × Nat) (cmd : ImDrawCmd) : DrawState × Nat :=
  if cmd.hasUserCallback then st
  else
    let count := cmd.elemCount
    let iStart := st.1.totalTris
    let total := iStart + count
    let grown := if st.1.tris.length < total then setLenTris total st.1.tris
      else st.1.tris
    let buf := writeAt grown iStart
      (cmdOutVerts atlasSize m fontID atlas vb ib st.2 cmd)
    (⟨total, buf⟩, st.2 + count)

/-- One iteration of the command-list loop of UI.Draw (src/ui.go lines
159-210): fold the command loop over the list's commands, with the
index-buffer offset reset to zero for the new list. -/
def runList (atlasSize : Vec) (m : Matrix) (fontID : Nat)
    (atlas : Nat → Rect) (ds : DrawState) (cl : ImDrawList) : DrawState :=
  (cl.commands.foldl
    (runCmd atlasSize m fontID atlas cl.vertexBuffer cl.indexBuffer)
    (ds, 0)).1

/-- UI.Draw (src/ui.go lines 136-217), up to the submission to the renderer:
update the view matrix from the window centre, fold the translation loop
over all command lists starting from counter zero and the previous frame's
buffer, then truncate the buffer to exactly the produced triangle count. -/
def Draw (atlasSize center : Vec) (fontID : Nat) (atlas : Nat → Rect)
    (data : List ImDrawList) (tris0 : List ShaderVertex) : DrawState :=
  let m := updateMatrix center
  let ds := data.foldl (runList atlasSize m fontID atlas) ⟨0, tris0⟩
  ⟨ds.totalTris, setLenTris ds.totalTris ds.tris⟩

/-- The triangles a command contributes: zero for a callback command, its
element count otherwise (the claim's counting function). -/
def cmdTriCount (cmd : ImDrawCmd) : Nat :=
  if cmd.hasUserCallback then 0 else cmd.elemCount

/-- The triangles a command list contributes. -/
def listTriCount (cl : ImDrawList) : Nat :=
  (cl.commands.map cmdTriCount).sum

/-- The triangles a whole frame's draw data contributes. -/
def dataTriCount (data : List ImDrawList) : Nat :=
  (data.map listTriCount).sum

/-- pixel.Action: the part of the host button-event action enum the callback
switches on (src/input.go lines 45-50); other actions (repeat) fall through
the switch. -/
inductive Action where
  | press
  | release
  | rep
deriving DecidableEq

/-- pixel.Button.IsKeyboardButton, embedded from the host library: a button
is a keyboard button when it lies in the GLFW key range from KeySpace (32)
to KeyLast = KeyMenu (348); mouse buttons are codes 0-7, below that range. -/
def isKeyboardButton (b : Nat) : Bool :=
  32 ≤ b && b ≤ 348

/-- keyMap (src/input.go lines 154-177): the fixed table from host button
codes to the GUI library's named key codes, with the concrete GLFW button
values on the left and imgui named-key values (base 512) on the right. -/
def keyMap : List (Nat × Nat) :=
  [(258, 512),  -- KeyTab       ↦ KeyTab
   (263, 513),  -- KeyLeft      ↦ KeyLeftArrow
   (262, 514),  -- KeyRight     ↦ KeyRightArrow
   (265, 515),  -- KeyUp        ↦ KeyUpArrow
   (264, 516),  -- KeyDown      ↦ KeyDownArrow
   (266, 517),  -- KeyPageUp    ↦ KeyPageUp
   (267, 518),  -- KeyPageDown  ↦ KeyPageDown
   (268, 519),  -- KeyHome      ↦ KeyHome
   (269, 520),  -- KeyEnd       ↦ KeyEnd
   (260, 521),  -- KeyInsert    ↦ KeyInsert
   (261, 522),  -- KeyDelete    ↦ KeyDelete
   (259, 523),  -- KeyBackspace ↦ KeyBackspace
   (32, 524),   -- KeySpace     ↦ KeySpace
   (257, 525),  -- KeyEnter     ↦ KeyEnter
   (256, 526),  -- KeyEscape    ↦ KeyEscape
   (65, 546),   -- KeyA         ↦ KeyA
   (67, 548),   -- KeyC         ↦ KeyC
   (86, 567),   -- KeyV         ↦ KeyV
   (88, 569),   -- KeyX         ↦ KeyX
   (90, 571),   -- KeyZ         ↦ KeyZ
   (89, 570)]   -- KeyY         ↦ KeyY

/-- Pointwise update of the key-state table at one index. -/
def updateKeys (keys : Nat → Bool) (i : Nat) (v : Bool) : Nat → Bool :=
  fun j => if j = i then v else keys j

/-- The button callback registered by initIO (src/input.go lines 32-53) on
the key-state table `io.KeysData()`.  The table is indexed from the GUI
library's named-key base: slot `i` holds named key `512 + i`.  Non-keyboard
buttons return early; a button in `keyMap` is routed to slot
`(mapped key) - 512`, an unmapped keyboard button to slot `button + 8`;
press sets the slot's down-state true, release sets it false, and any other
action writes the table back unchanged. -/
def buttonCallback (keys : Nat → Bool) (button : Nat) (action : Action) :
    Nat → Bool :=
  if !(isKeyboardButton button) then keys
  else
    let mappedVal : Nat :=
      match keyMap.lookup button with
      | some k => k - 512
      | none => button + 8
    match action with
    | Action.press => updateKeys keys mappedVal true
    | Action.release => updateKeys keys mappedVal false
    | Action.rep => keys

/-- UI.MouseScroll (src/input.go lines 106-112): the zero vector when the
GUI library wants to capture the mouse, the raw host scroll otherwise. -/
def MouseScroll (wantCaptureMouse : Bool) (rawScroll : Vec) : Vec :=
  if wantCaptureMouse then ZV else rawScroll

/-! Lemmas about the translation loop. -/

/-- Resizing with `setLenTris n` always leaves the buffer with exactly `n`
entries. -/
theorem length_setLenTris (n : Nat) (l : List ShaderVertex) :
    (setLenTris n l).length = n := by
  simp [setLenTris]
  omega

/-- One command-loop iteration advances the triangle counter by the
command's contribution. -/
theorem runCmd_totalTris (a : Vec) (m : Matrix) (f : Nat) (atl : Nat → Rect)
    (vb : List DrawVert) (ib : List Nat) (st : DrawState × Nat)
    (cmd : ImDrawCmd) :
    ((runCmd a m f atl vb ib st cmd).1).totalTris
      = st.1.totalTris + cmdTriCount cmd := by
  cases h : cmd.hasUserCallback <;> simp [runCmd, cmdTriCount, h]

/-- Folding the command loop over a command sequence adds the sum of the
commands' contributions to the triangle counter. -/
theorem foldl_runCmd_totalTris (a : Vec) (m : Matrix) (f : Nat)
    (atl : Nat → Rect) (vb : List DrawVert) (ib : List Nat) :
    ∀ (cmds : List ImDrawCmd) (st : DrawState × Nat),
      ((cmds.foldl (runCmd a m f atl vb ib) st).1).totalTris
        = st.1.totalTris + (cmds.map cmdTriCount).sum := by
  intro cmds
  induction cmds with
  | nil => intro st; simp
  | cons c cs ih =>
      intro st
      rw [List.foldl_cons, ih, runCmd_totalTris]
      simp [Nat.add_assoc]

/-- One command-list iteration adds the list's contribution to the triangle
counter. -/
theorem runList_totalTris (a : Vec) (m : Matrix) (f : Nat) (atl : Nat → Rect)
    (ds : DrawState) (cl : ImDrawList) :
    (runList a m f atl ds cl).totalTris = ds.totalTris + listTriCount cl := by
  simp [runList, listTriCount, foldl_runCmd_totalTris]

/-- Folding the list loop over the frame's draw data adds the frame's total
contribution to the triangle counter. -/
theorem foldl_runList_totalTris (a : Vec) (m : Matrix) (f : Nat)
    (atl : Nat → Rect) :
    ∀ (data : List ImDrawList) (ds : DrawState),
      (data.foldl (runList a m f atl) ds).totalTris
        = ds.totalTris + dataTriCount data := by
  intro data
  induction data with
  | nil => intro ds; simp [dataTriCount]
  | cons cl cls ih =>
      intro ds
      rw [List.foldl_cons, ih, runList_totalTris]
      simp [dataTriCount, Nat.add_assoc]

/-! Claim theorems. -/

/-- Claim C1: after the Draw translation loop, the output triangle buffer's
length equals the sum of ElemCount over all non-callback commands across all
command lists (callbacks contribute zero), and the buffer is truncated to
exactly that length before submission. -/
theorem draw_buffer_length_eq_elem_count_sum (atlasSize center : Vec)
    (fontID : Nat) (atlas : Nat → Rect) (data : List ImDrawList)
    (tris0 : List ShaderVertex) :
    (Draw atlasSize center fontID atlas data tris0).tris.length
      = dataTriCount data := by
  simp [Draw, length_setLenTris, foldl_runList_totalTris]

/-- Claim C2 (counter-evaluation): with the window centre at (400, 300) the
all-zero clip rectangle is not passed through the translation unmodified —
projecting it through the frame's view transform turns it into the rectangle
with both corners at (0, 600), which the shader's all-zero sentinel test no
longer recognises. -/
theorem zero_clip_rect_transformed :
    processClipRect (updateMatrix ⟨400, 300⟩) ⟨0, 0, 0, 0⟩
      = ⟨⟨0, 600⟩, ⟨0, 600⟩⟩ ∧
    processClipRect (updateMatrix ⟨400, 300⟩) ⟨0, 0, 0, 0⟩
      ≠ ⟨⟨0, 0⟩, ⟨0, 0⟩⟩ := by
  have h : processClipRect (updateMatrix ⟨400, 300⟩) ⟨0, 0, 0, 0⟩
      = ⟨⟨0, 600⟩, ⟨0, 600⟩⟩ := by
    simp [processClipRect, updateMatrix, Matrix.scaledXY, IM, Matrix.project,
      imguiRectToPixelRect, Rect.norm, min_def, max_def]
    norm_num
  refine ⟨h, ?_⟩
  rw [h]
  simp [Rect.mk.injEq, Vec.mk.injEq]

/-- Claim C3: calcData remaps a raw UV componentwise as
`(raw_uv * frame.size + frame.min) / atlas_texture.size`; in particular raw
UV (0,0) lands exactly on `frame.min / atlas_size` and raw UV (1,1) exactly
on `frame.max / atlas_size`. -/
theorem calcData_atlas_remap (atlasSize : Vec) (frame : Rect) (uv : Vec) :
    calcData atlasSize frame uv =
      ⟨(uv.x * (frame.max.x - frame.min.x) + frame.min.x) / atlasSize.x,
       (uv.y * (frame.max.y - frame.min.y) + frame.min.y) / atlasSize.y⟩ ∧
    calcData atlasSize frame ⟨0, 0⟩ =
      ⟨frame.min.x / atlasSize.x, frame.min.y / atlasSize.y⟩ ∧
    calcData atlasSize frame ⟨1, 1⟩ =
      ⟨frame.max.x / atlasSize.x, frame.max.y / atlasSize.y⟩ := by
  refine ⟨?_, ?_, ?_⟩ <;>
    · simp only [calcData, Vec.scaledXY, Vec.add, Vec.map, recip, Rect.size,
        Vec.mk.injEq]
      constructor <;> (rw [div_eq_mul_one_div]; ring)

/-- Claim C4: imguiColorToPixelColor reads the packed 32-bit color as ABGR
(alpha in the highest byte, then blue, green, red), and repacking the
resulting RGBA channels in ABGR byte order restores the original value. -/
theorem color_abgr_roundtrip (c : Nat) (h : c < 2 ^ 32) :
    imguiColorToPixelColor c =
      ⟨c % 2 ^ 8, c / 2 ^ 8 % 2 ^ 8, c / 2 ^ 16 % 2 ^ 8, c / 2 ^ 24 % 2 ^ 8⟩ ∧
    packABGR (imguiColorToPixelColor c) = c := by
  refine ⟨rfl, ?_⟩
  simp only [packABGR, imguiColorToPixelColor]
  omega

/-- Witness for C4 at the concrete packed color 0x89ABCDEF. -/
theorem color_abgr_roundtrip_witness :
    2309737967 < 2 ^ 32 ∧
    packABGR (imguiColorToPixelColor 2309737967) = 2309737967 :=
  ⟨by norm_num, (color_abgr_roundtrip 2309737967 (by norm_num)).2⟩

/-- Claim C5: every output vertex of a non-callback command carries
intensity 0 when the command's texture id is the font texture id and
intensity 1 otherwise. -/
theorem cmd_vertex_intensity (atlasSize : Vec) (m : Matrix) (fontID : Nat)
    (atlas : Nat → Rect) (vb : List DrawVert) (ib : List Nat) (ibOff : Nat)
    (cmd : ImDrawCmd) (v : ShaderVertex)
    (hcb : cmd.hasUserCallback = false)
    (hv : v ∈ cmdOutVerts atlasSize m fontID atlas vb ib ibOff cmd) :
    v.intensity = if cmd.texID = fontID then 0 else 1 := by
  simp only [cmdOutVerts, hcb, Bool.false_eq_true, if_false, List.mem_map,
    List.mem_range] at hv
  obtain ⟨i, _, rfl⟩ := hv
  rfl

/-- Witness for C5: a one-element command with texture id 5 against font id
7 emits its single vertex with intensity 1. -/
theorem cmd_vertex_intensity_witness :
    (ImDrawCmd.mk false 1 ⟨0, 0, 0, 0⟩ 5).hasUserCallback = false ∧
    mkShaderVertex ⟨1, 1⟩ ⟨⟨0, 0⟩, ⟨1, 1⟩⟩ 1 (processClipRect IM ⟨0, 0, 0, 0⟩)
        [] [] 0 0
      ∈ cmdOutVerts ⟨1, 1⟩ IM 7 (fun _ => ⟨⟨0, 0⟩, ⟨1, 1⟩⟩) [] [] 0
        (ImDrawCmd.mk false 1 ⟨0, 0, 0, 0⟩ 5) ∧
    (mkShaderVertex ⟨1, 1⟩ ⟨⟨0, 0⟩, ⟨1, 1⟩⟩ 1 (processClipRect IM ⟨0, 0, 0, 0⟩)
        [] [] 0 0).intensity = 1 := by
  refine ⟨rfl, ?_, ?_⟩
  · simp [cmdOutVerts]
  · have h := cmd_vertex_intensity ⟨1, 1⟩ IM 7 (fun _ => ⟨⟨0, 0⟩, ⟨1, 1⟩⟩)
      [] [] 0 (ImDrawCmd.mk false 1 ⟨0, 0, 0, 0⟩ 5)
      (mkShaderVertex ⟨1, 1⟩ ⟨⟨0, 0⟩, ⟨1, 1⟩⟩ 1
        (processClipRect IM ⟨0, 0, 0, 0⟩) [] [] 0 0)
      rfl (by simp [cmdOutVerts])
    simpa using h

/-- Claim C6: a key event for a button in the fixed mapping table updates
exactly the mapped named key's slot of the key-state table (table slot
`mapped - 512`, i.e. the named key itself when slots are indexed from the
named-key base 512), true on press and false on release; a keyboard button
outside the table updates slot `button + 8` instead of being dropped. -/
theorem key_event_routing (keys : Nat → Bool) (button k : Nat)
    (hkb : isKeyboardButton button = true) :
    (keyMap.lookup button = some k →
      buttonCallback keys button Action.press
        = updateKeys keys (k - 512) true ∧
      buttonCallback keys button Action.release
        = updateKeys keys (k - 512) false) ∧
    (keyMap.lookup button = none →
      buttonCallback keys button Action.press
        = updateKeys keys (button + 8) true ∧
      buttonCallback keys button Action.release
        = updateKeys keys (button + 8) false) := by
  constructor <;> intro h <;> constructor <;> simp [buttonCallback, hkb, h]

/-- Witness for C6: the Tab button (code 258) maps to named key 512, table
slot 0. -/
theorem key_event_routing_witness :
    isKeyboardButton 258 = true ∧
    keyMap.lookup 258 = some 512 ∧
    buttonCallback (fun _ => false) 258 Action.press
      = updateKeys (fun _ => false) 0 true := by
  refine ⟨by decide, by decide, ?_⟩
  have h := ((key_event_routing (fun _ => false) 258 512 (by decide)).1
    (by decide)).1
  simpa using h

/-- Claim C7: the MouseScroll query yields the zero vector when the GUI
library wants to capture the mouse, and the raw host scroll value
unchanged otherwise. -/
theorem mouse_scroll_capture (raw : Vec) :
    MouseScroll true raw = ZV ∧ MouseScroll false raw = raw := by
  constructor <;> rfl

/-- Claim C8: the clip rectangle attached to a command's output vertices is
normalized — its minimum corner is componentwise ≤ its maximum corner. -/
theorem clip_rect_normalized (m : Matrix) (r : ImVec4) :
    (processClipRect m r).min.x ≤ (processClipRect m r).max.x ∧
    (processClipRect m r).min.y ≤ (processClipRect m r).max.y := by
  simp only [processClipRect, Rect.norm]
  exact ⟨min_le_max, min_le_max⟩

/-- Claim C9: a command list with zero commands leaves the translation state
(counter and output buffer, hence the buffer's length) unchanged. -/
theorem empty_command_list_noop (atlasSize : Vec) (m : Matrix) (fontID : Nat)
    (atlas : Nat → Rect) (ds : DrawState) (cl : ImDrawList)
    (h : cl.commands = []) :
    runList atlasSize m fontID atlas ds cl = ds := by
  simp [runList, h]

/-- Witness for C9 at a concrete empty command list. -/
theorem empty_command_list_noop_witness :
    runList ⟨1, 1⟩ IM 0 (fun _ => ⟨⟨0, 0⟩, ⟨1, 1⟩⟩) ⟨0, []⟩ ⟨[], [], []⟩
      = ⟨0, []⟩ :=
  empty_command_list_noop ⟨1, 1⟩ IM 0 (fun _ => ⟨⟨0, 0⟩, ⟨1, 1⟩⟩) ⟨0, []⟩
    ⟨[], [], []⟩ rfl

/-- Claim C10: a button event for a non-keyboard button (e.g. a mouse
button) leaves the key-state table unchanged. -/
theorem non_keyboard_button_no_effect (keys : Nat → Bool) (button : Nat)
    (action : Action) (h : isKeyboardButton button = false) :
    buttonCallback keys button action = keys := by
  simp [buttonCallback, h]

/-- Witness for C10 at mouse button 1 (code 0). -/
theorem non_keyboard_button_no_effect_witness :
    buttonCallback (fun _ => false) 0 Action.press = (fun _ => false) :=
  non_keyboard_button_no_effect (fun _ => false) 0 Action.press (by decide)

end PixelUI
